import Mathlib

/-!
Shallow embedding of the ragkit desktop backend supervisor
(src/desktop/src-tauri/src/backend.rs and src/desktop/src-tauri/src/commands.rs).

External effects (TCP bind, process spawn, HTTP probes and calls) are
modelled as oracle parameters describing the outcome each operation
would observe; the Rust control flow is translated directly.
-/

namespace Ragkit

/-- Errors produced by the lifecycle functions in backend.rs.  The code
uses anyhow string errors; they are represented structurally here, with
the message payloads kept where a claim mentions them. -/
inductive SupError where
  | noPortAvailable
  | spawnFailed (msg : String)
  | clientBuildFailed (msg : String)
  | timeout
deriving DecidableEq, Repr

/-- Holds either a sidecar child or a tokio process child (backend.rs,
`enum BackendChild`).  The payload stands for the opaque OS handle. -/
inductive BackendChild where
  | sidecar (id : Nat)
  | process (id : Nat)
deriving DecidableEq, Repr

/-- Process-wide supervisor state: `port` models the `BACKEND_PORT`
atomic (0 = not running) and `child` models the `BACKEND_CHILD` mutex
slot.  `ready` is a ghost history flag, not a variable of the code,
recording whether the currently stored child has passed the readiness
probe; it is needed to state the readiness half of the invariant. -/
structure SupState where
  port : Nat
  child : Option BackendChild
  ready : Bool
deriving DecidableEq, Repr

/-- Loop body of `find_available_port`: try `n` consecutive candidate
ports starting at `p`, where `bindOk q` is the outcome the OS would
give for binding a listener on `127.0.0.1:q` (backend.rs lines 142-150,
`for port in 8100..8200`). -/
def findPortFrom (bindOk : Nat → Bool) : Nat → Nat → Except SupError Nat
  | _, 0 => Except.error SupError.noPortAvailable
  | p, n + 1 => if bindOk p then Except.ok p else findPortFrom bindOk (p + 1) n

/-- Find an available port (backend.rs `find_available_port`): scan the
100 candidate ports 8100, 8101, ..., 8199 in ascending order. -/
def find_available_port (bindOk : Nat → Bool) : Except SupError Nat :=
  findPortFrom bindOk 8100 100

lemma findPortFrom_ok (bindOk : Nat → Bool) :
    ∀ n p q, findPortFrom bindOk p n = Except.ok q →
      p ≤ q ∧ q < p + n ∧ bindOk q = true ∧ ∀ r, p ≤ r → r < q → bindOk r = false := by
  intro n
  induction n with
  | zero => intro p q h; simp [findPortFrom] at h
  | succ n ih =>
    intro p q h
    by_cases hb : bindOk p = true
    · simp [findPortFrom, hb] at h
      subst h
      exact ⟨Nat.le_refl p, by omega, hb, fun r h1 h2 => by omega⟩
    · simp [findPortFrom, hb] at h
      obtain ⟨h1, h2, h3, h4⟩ := ih (p + 1) q h
      refine ⟨by omega, by omega, h3, fun r hr1 hr2 => ?_⟩
      rcases Nat.eq_or_lt_of_le hr1 with he | hl
      · simpa [← he] using hb
      · exact h4 r hl hr2

lemma findPortFrom_error (bindOk : Nat → Bool) :
    ∀ n p, (∀ q, p ≤ q → q < p + n → bindOk q = false) →
      findPortFrom bindOk p n = Except.error SupError.noPortAvailable := by
  intro n
  induction n with
  | zero => intro p _; rfl
  | succ n ih =>
    intro p h
    have hb : bindOk p = false := h p (Nat.le_refl p) (by omega)
    simp [findPortFrom, hb]
    exact ih (p + 1) fun q h1 h2 => h q (by omega) (by omega)

/-- C2 counterexample: when only port 8199 is free, `find_available_port`
returns 8199, which lies outside the half-open interval [8100, 8199)
named by the claim. -/
theorem C2_counterexample :
    find_available_port (fun p => p == 8199) = Except.ok 8199 ∧ ¬(8199 < 8199) :=
  ⟨rfl, by decide⟩

/-- C2 (amended): `find_available_port` scans 8100..8199 in ascending
order and returns the first port where the bind succeeds; every returned
port lies in the inclusive range [8100, 8199]; and when all 100 binds
fail it returns `noPortAvailable` (the function is structurally
recursive, hence terminating, with no retries). -/
theorem C2_amended_allocate (bindOk : Nat → Bool) :
    (∀ p, find_available_port bindOk = Except.ok p →
        8100 ≤ p ∧ p ≤ 8199 ∧ bindOk p = true ∧
        ∀ q, 8100 ≤ q → q < p → bindOk q = false) ∧
    ((∀ q, 8100 ≤ q → q ≤ 8199 → bindOk q = false) →
        find_available_port bindOk = Except.error SupError.noPortAvailable) := by
  constructor
  · intro p h
    obtain ⟨h1, h2, h3, h4⟩ := findPortFrom_ok bindOk 100 8100 p h
    exact ⟨h1, by omega, h3, h4⟩
  · intro h
    exact findPortFrom_error bindOk 100 8100 fun q h1 h2 => h q h1 (by omega)

/-- C2 witness: with every bind failing, the allocator reports
`noPortAvailable`. -/
theorem C2_amended_allocate_witness :
    find_available_port (fun _ => false) = Except.error SupError.noPortAvailable :=
  (C2_amended_allocate (fun _ => false)).2 (fun _ _ _ => rfl)

/-- Outcome a single health probe would observe: an HTTP response with
some status code, or a connection-level error (backend.rs line 161,
`client.get(&health_url).send().await`). -/
inductive ProbeResult where
  | response (status : Nat)
  | connError (msg : String)
deriving DecidableEq, Repr

/-- The `reqwest::StatusCode::is_success` predicate: 2xx statuses. -/
def statusIsSuccess (s : Nat) : Bool := 200 ≤ s && s ≤ 299

/-- Whether a probe outcome is the terminal-success case of the loop in
`wait_for_backend` (a response whose status is a success status). -/
def probeSuccess : ProbeResult → Bool
  | ProbeResult.response s => statusIsSuccess s
  | ProbeResult.connError _ => false

/-- Loop of `wait_for_backend` (backend.rs lines 159-165): `probe i` is
the outcome the i-th poll would observe, and `fuel` is the number of
iterations the 30 s deadline admits (each failed iteration spends one
250 ms sleep plus the probe time).  A success-status response returns
`ok`; every other outcome (non-success response or connection error)
falls to the catch-all arm, sleeps, and retries; deadline expiry gives
the timeout error. -/
def waitLoop (probe : Nat → ProbeResult) : Nat → Nat → Except SupError Unit
  | _, 0 => Except.error SupError.timeout
  | i, fuel + 1 =>
    match probe i with
    | ProbeResult.response s =>
        if statusIsSuccess s then Except.ok () else waitLoop probe (i + 1) fuel
    | ProbeResult.connError _ => waitLoop probe (i + 1) fuel

/-- Wait for the backend /health endpoint (backend.rs
`wait_for_backend`).  `clientBuild` is the outcome of
`reqwest::Client::builder().timeout(2s).build()`, whose failure is
propagated by the `?` operator before any probe happens. -/
def wait_for_backend (clientBuild : Except String Unit) (probe : Nat → ProbeResult)
    (fuel : Nat) : Except SupError Unit :=
  match clientBuild with
  | Except.error e => Except.error (SupError.clientBuildFailed e)
  | Except.ok _ => waitLoop probe 0 fuel

lemma waitLoop_succ (probe : Nat → ProbeResult) (i fuel : Nat) :
    waitLoop probe i (fuel + 1) =
      if probeSuccess (probe i) = true then Except.ok ()
      else waitLoop probe (i + 1) fuel := by
  cases h : probe i <;> simp [waitLoop, probeSuccess, h]

lemma waitLoop_ok_iff (probe : Nat → ProbeResult) :
    ∀ fuel i, waitLoop probe i fuel = Except.ok () ↔
      ∃ j, j < fuel ∧ probeSuccess (probe (i + j)) = true := by
  intro fuel
  induction fuel with
  | zero => intro i; simp [waitLoop]
  | succ fuel ih =>
    intro i
    rw [waitLoop_succ]
    by_cases h : probeSuccess (probe i) = true
    · rw [if_pos h]
      constructor
      · intro _; exact ⟨0, by omega, by simpa using h⟩
      · intro _; rfl
    · rw [if_neg h, ih (i + 1)]
      constructor
      · rintro ⟨j, hj, hs⟩
        exact ⟨j + 1, by omega, by simpa [Nat.add_assoc, Nat.add_comm 1 j] using hs⟩
      · rintro ⟨j, hj, hs⟩
        match j with
        | 0 => exact absurd (by simpa using hs) h
        | j + 1 =>
          exact ⟨j, by omega, by simpa [Nat.add_assoc, Nat.add_comm 1 j] using hs⟩

lemma waitLoop_error_iff (probe : Nat → ProbeResult) :
    ∀ fuel i, waitLoop probe i fuel = Except.error SupError.timeout ↔
      ∀ j, j < fuel → probeSuccess (probe (i + j)) = false := by
  intro fuel
  induction fuel with
  | zero => intro i; simp [waitLoop]
  | succ fuel ih =>
    intro i
    rw [waitLoop_succ]
    by_cases h : probeSuccess (probe i) = true
    · rw [if_pos h]
      constructor
      · intro hc; exact absurd hc (by simp)
      · intro hall
        exact absurd (hall 0 (by omega)) (by simpa using h)
    · rw [if_neg h, ih (i + 1)]
      constructor
      · intro hall j hj
        match j with
        | 0 => simpa using Bool.of_not_eq_true h
        | j + 1 =>
          have := hall j (by omega)
          simpa [Nat.add_assoc, Nat.add_comm 1 j] using this
      · intro hall j hj
        have := hall (j + 1) (by omega)
        simpa [Nat.add_assoc, Nat.add_comm 1 j] using this

lemma waitLoop_congr (probe probe2 : Nat → ProbeResult)
    (h : ∀ i, probeSuccess (probe i) = probeSuccess (probe2 i)) :
    ∀ fuel i, waitLoop probe i fuel = waitLoop probe2 i fuel := by
  intro fuel
  induction fuel with
  | zero => intro i; rfl
  | succ fuel ih =>
    intro i
    rw [waitLoop_succ, waitLoop_succ, h i, ih (i + 1)]

/-- C4: provided the probe client builds (the only step before the
loop), `wait_for_backend` returns ok iff some probe within the deadline
observes a success-status response; it returns the timeout error iff no
probe within the deadline does; and its result depends only on whether
each probe outcome is a success response, so a non-success status and a
connection error are treated identically (sleep and retry). -/
theorem C4_wait_for_backend_iff (clientBuild : Except String Unit)
    (probe : Nat → ProbeResult) (fuel : Nat) (hcb : clientBuild = Except.ok ()) :
    (wait_for_backend clientBuild probe fuel = Except.ok () ↔
        ∃ i, i < fuel ∧ probeSuccess (probe i) = true) ∧
    (wait_for_backend clientBuild probe fuel = Except.error SupError.timeout ↔
        ∀ i, i < fuel → probeSuccess (probe i) = false) ∧
    (∀ probe2, (∀ i, probeSuccess (probe i) = probeSuccess (probe2 i)) →
        wait_for_backend clientBuild probe fuel = wait_for_backend clientBuild probe2 fuel) := by
  subst hcb
  refine ⟨?_, ?_, ?_⟩
  · simpa using waitLoop_ok_iff probe fuel 0
  · simpa using waitLoop_error_iff probe fuel 0
  · intro probe2 h
    simpa [wait_for_backend] using waitLoop_congr probe probe2 h fuel 0

/-- C4 witness: a probe trace whose third poll answers 200 makes
`wait_for_backend` succeed within a five-iteration deadline. -/
theorem C4_wait_for_backend_iff_witness :
    wait_for_backend (Except.ok ())
      (fun i => if i = 2 then ProbeResult.response 200 else ProbeResult.connError "refused")
      5 = Except.ok () :=
  (C4_wait_for_backend_iff (Except.ok ())
      (fun i => if i = 2 then ProbeResult.response 200 else ProbeResult.connError "refused")
      5 rfl).1.mpr ⟨2, by decide, by decide⟩

/-- HTTP methods used by the command layer (reqwest::Method). -/
inductive Method where
  | GET
  | POST
  | PUT
  | DELETE
deriving DecidableEq, Repr

/-- Outcome the network would give `backend_request` for one HTTP call,
for a caller expecting a decoded value of type `T`: either the send
itself fails at transport level, or a response arrives with a status
code, an outcome for reading the body as text (`response.text()`), and
an outcome for decoding the body as `T` (`response.json::<T>()`). -/
inductive SendOutcome (T : Type) where
  | sendError (msg : String)
  | response (status : Nat) (textResult : Except String String)
      (decodeResult : Except String T)

/-- Structured form of the three anyhow errors `backend_request`
produces (backend.rs lines 190, 195, 201). -/
inductive ProxyError where
  | requestFailed (msg : String)
  | backendError (status : Nat) (body : String)
  | decodeFailed (msg : String)
deriving DecidableEq, Repr

/-- Renders a `ProxyError` as the anyhow message string the code builds
(`e.to_string()` at the command layer); the status is rendered as its
numeric code. -/
def renderProxyError : ProxyError → String
  | ProxyError.requestFailed msg => "Request failed: " ++ msg
  | ProxyError.backendError status body =>
      "Backend error (" ++ toString status ++ "): " ++ body
  | ProxyError.decodeFailed msg => "Failed to parse response: " ++ msg

/-- Get the backend API base URL (backend.rs `get_backend_url`), from
the currently stored `BACKEND_PORT` value. -/
def get_backend_url (port : Nat) : String :=
  "http://127.0.0.1:" ++ toString port

/-- Make an HTTP request to the backend (backend.rs `backend_request`).
The network is an oracle `net` from (method, url, optional JSON body)
to the observed `SendOutcome`.  A send failure becomes `requestFailed`;
a non-success status reads the body as text, defaulting to "" when the
read fails (`unwrap_or_default`), and becomes `backendError`; on a
success status the decoded value is returned, a decode failure becoming
`decodeFailed`. -/
def backend_request (T : Type) (net : Method → String → Option String → SendOutcome T)
    (method : Method) (port : Nat) (path : String) (body : Option String) :
    Except ProxyError T :=
  match net method (get_backend_url port ++ path) body with
  | SendOutcome.sendError e => Except.error (ProxyError.requestFailed e)
  | SendOutcome.response status textR decodeR =>
    if statusIsSuccess status then
      match decodeR with
      | Except.ok v => Except.ok v
      | Except.error e => Except.error (ProxyError.decodeFailed e)
    else
      match textR with
      | Except.ok t => Except.error (ProxyError.backendError status t)
      | Except.error _ => Except.error (ProxyError.backendError status "")

/-- The text `backend_request` uses for the error body: the body-read
result, defaulted to the empty string on failure. -/
def bodyTextOrDefault : Except String String → String
  | Except.ok t => t
  | Except.error _ => ""

/-- Response shape of the health-check command (commands.rs
`HealthCheckResponse`). -/
structure HealthCheckResponse where
  ok : Bool
  version : Option String
  error : Option String
deriving DecidableEq, Repr

/-- Health check command (commands.rs `health_check`): a GET /health
through `backend_request`; a proxy failure is converted into an Ok
response carrying `ok = false` and the rendered failure text. -/
def health_check (net : Method → String → Option String → SendOutcome HealthCheckResponse)
    (port : Nat) : Except String HealthCheckResponse :=
  match backend_request HealthCheckResponse net Method.GET port "/health" none with
  | Except.ok resp => Except.ok resp
  | Except.error e =>
      Except.ok { ok := false, version := none, error := some (renderProxyError e) }

/-- C5: `backend_request` partitions its outcomes into exactly the four
cases: transport send failure becomes `requestFailed` carrying the
message; a non-success status becomes `backendError` whose rendered
message is literally the status code framed between the prefix and the
body text (so it contains both); a success status with a decode failure
becomes `decodeFailed`; and a success status with a successful decode
returns the decoded value. -/
theorem C5_backend_request_errors (T : Type)
    (net : Method → String → Option String → SendOutcome T)
    (method : Method) (port : Nat) (path : String) (body : Option String) :
    (∀ e, net method (get_backend_url port ++ path) body = SendOutcome.sendError e →
        backend_request T net method port path body =
          Except.error (ProxyError.requestFailed e)) ∧
    (∀ status textR decodeR,
        net method (get_backend_url port ++ path) body =
          SendOutcome.response status textR decodeR →
        statusIsSuccess status = false →
        backend_request T net method port path body =
          Except.error (ProxyError.backendError status (bodyTextOrDefault textR)) ∧
        renderProxyError (ProxyError.backendError status (bodyTextOrDefault textR)) =
          "Backend error (" ++ toString status ++ "): " ++ bodyTextOrDefault textR) ∧
    (∀ status textR e,
        net method (get_backend_url port ++ path) body =
          SendOutcome.response status textR (Except.error e) →
        statusIsSuccess status = true →
        backend_request T net method port path body =
          Except.error (ProxyError.decodeFailed e)) ∧
    (∀ status textR v,
        net method (get_backend_url port ++ path) body =
          SendOutcome.response status textR (Except.ok v) →
        statusIsSuccess status = true →
        backend_request T net method port path body = Except.ok v) := by
  refine ⟨?_, ?_, ?_, ?_⟩
  · intro e h
    simp [backend_request, h]
  · intro status textR decodeR h hs
    refine ⟨?_, rfl⟩
    cases textR <;> simp [backend_request, h, hs, bodyTextOrDefault]
  · intro status textR e h hs
    simp [backend_request, h, hs]
  · intro status textR v h hs
    simp [backend_request, h, hs]

/-- C5 witness: a 500 response with body "kb not found" yields the
`backendError` value, and its rendered message is the concatenation
containing both the status and the body. -/
theorem C5_backend_request_errors_witness :
    backend_request Nat
        (fun _ _ _ => SendOutcome.response 500 (Except.ok "kb not found")
          (Except.error "shape"))
        Method.GET 8100 "/api/query" none =
      Except.error (ProxyError.backendError 500 "kb not found") ∧
    renderProxyError (ProxyError.backendError 500 "kb not found") =
      "Backend error (" ++ toString 500 ++ "): " ++ "kb not found" :=
  (C5_backend_request_errors Nat
      (fun _ _ _ => SendOutcome.response 500 (Except.ok "kb not found")
        (Except.error "shape"))
      Method.GET 8100 "/api/query" none).2.1 500 (Except.ok "kb not found")
    (Except.error "shape") rfl rfl

/-- C9: with the stored port at zero the request URL is literally
"http://127.0.0.1:0" followed by the path — `backend_request` proceeds
with no special gating — and when the network rejects the send (as the
OS does for port 0) the result is the transport-level `requestFailed`
error carrying the failure message. -/
theorem C9_port_zero_request (T : Type)
    (net : Method → String → Option String → SendOutcome T)
    (method : Method) (path : String) (body : Option String) (e : String)
    (h : net method ("http://127.0.0.1:0" ++ path) body = SendOutcome.sendError e) :
    get_backend_url 0 = "http://127.0.0.1:0" ∧
    backend_request T net method 0 path body =
      Except.error (ProxyError.requestFailed e) := by
  refine ⟨rfl, ?_⟩
  simp only [backend_request]
  rw [show get_backend_url 0 = "http://127.0.0.1:0" from rfl, h]

/-- C9 witness: a connection-refused send to the port-0 URL surfaces as
`requestFailed`. -/
theorem C9_port_zero_request_witness :
    backend_request Nat (fun _ _ _ => SendOutcome.sendError "connect refused")
        Method.GET 0 "/api/settings" none =
      Except.error (ProxyError.requestFailed "connect refused") :=
  (C9_port_zero_request Nat (fun _ _ _ => SendOutcome.sendError "connect refused")
      Method.GET "/api/settings" none "connect refused" rfl).2

/-- C10: on a non-success status whose body-read fails, the result is
still the `backendError` carrying the status, with the body defaulted
to the empty string; the body-read failure never becomes a separate
error kind. -/
theorem C10_body_read_failure (T : Type)
    (net : Method → String → Option String → SendOutcome T)
    (method : Method) (port : Nat) (path : String) (body : Option String)
    (status : Nat) (e : String) (decodeR : Except String T)
    (h : net method (get_backend_url port ++ path) body =
        SendOutcome.response status (Except.error e) decodeR)
    (hs : statusIsSuccess status = false) :
    backend_request T net method port path body =
      Except.error (ProxyError.backendError status "") := by
  simp [backend_request, h, hs]

/-- C10 witness: a 404 whose body-read fails yields
`backendError 404 ""`. -/
theorem C10_body_read_failure_witness :
    backend_request Nat
        (fun _ _ _ => SendOutcome.response 404 (Except.error "stream closed")
          (Except.ok 1))
        Method.GET 8100 "/api/keys/x" none =
      Except.error (ProxyError.backendError 404 "") :=
  C10_body_read_failure Nat
    (fun _ _ _ => SendOutcome.response 404 (Except.error "stream closed")
      (Except.ok 1))
    Method.GET 8100 "/api/keys/x" none 404 "stream closed" (Except.ok 1) rfl rfl

lemma renderProxyError_length_pos (e : ProxyError) : 0 < (renderProxyError e).length := by
  cases e with
  | requestFailed m =>
      simp only [renderProxyError, String.length_append]
      have hp : 0 < "Request failed: ".length := by decide
      omega
  | backendError s b =>
      simp only [renderProxyError, String.length_append]
      have hp : 0 < "Backend error (".length := by decide
      omega
  | decodeFailed m =>
      simp only [renderProxyError, String.length_append]
      have hp : 0 < "Failed to parse response: ".length := by decide
      omega

/-- C6: `health_check` never returns an error: whatever the proxy call
observes, the result is Ok; and when the proxy call fails, the Ok value
has `ok = false` and its `error` field carries the rendered failure
text, which is never empty. -/
theorem C6_health_check_total
    (net : Method → String → Option String → SendOutcome HealthCheckResponse)
    (port : Nat) :
    (∀ msg, health_check net port ≠ Except.error msg) ∧
    (∀ e, backend_request HealthCheckResponse net Method.GET port "/health" none =
        Except.error e →
      health_check net port =
        Except.ok { ok := false, version := none, error := some (renderProxyError e) } ∧
      0 < (renderProxyError e).length) := by
  constructor
  · intro msg
    unfold health_check
    cases backend_request HealthCheckResponse net Method.GET port "/health" none <;> simp
  · intro e h
    constructor
    · simp [health_check, h]
    · exact renderProxyError_length_pos e

/-- C6 witness: against an unreachable backend (every send fails) the
health check returns the Ok response with `ok = false` and a non-empty
error text. -/
theorem C6_health_check_total_witness :
    health_check (fun _ _ _ => SendOutcome.sendError "connect refused") 0 =
      Except.ok (HealthCheckResponse.mk false none
        (some (renderProxyError (ProxyError.requestFailed "connect refused")))) ∧
    0 < (renderProxyError (ProxyError.requestFailed "connect refused")).length :=
  (C6_health_check_total (fun _ _ _ => SendOutcome.sendError "connect refused") 0).2
    (ProxyError.requestFailed "connect refused") rfl

/-- Environment of one `start_backend` call: the outcomes each external
step would observe.  `bindOk` drives `find_available_port`;
`debugAssertions` is the compile-time `cfg!(debug_assertions)` flag
selecting dev versus sidecar launch; `devSpawn` and `sidecarSpawn` are
the spawn outcomes (pid on success, message on failure; the sidecar
field folds in `shell().sidecar(..)` creation failure); `clientBuild`
and `probe`/`probeFuel` drive `wait_for_backend`. -/
structure StartEnv where
  bindOk : Nat → Bool
  debugAssertions : Bool
  devSpawn : Except String Nat
  sidecarSpawn : Except String Nat
  clientBuild : Except String Unit
  probe : Nat → ProbeResult
  probeFuel : Nat

/-- Launch the child by build mode (backend.rs `start_dev_backend` and
`start_sidecar_backend`), wrapping spawn failures into the anyhow
messages the code builds. -/
def spawnChild (env : StartEnv) : Except SupError BackendChild :=
  if env.debugAssertions then
    match env.devSpawn with
    | Except.ok pid => Except.ok (BackendChild.process pid)
    | Except.error e =>
        Except.error (SupError.spawnFailed ("Failed to spawn dev backend: " ++ e))
  else
    match env.sidecarSpawn with
    | Except.ok pid => Except.ok (BackendChild.sidecar pid)
    | Except.error e =>
        Except.error (SupError.spawnFailed ("Failed to spawn sidecar: " ++ e))

/-- Start the backend (backend.rs `start_backend`), as a transition on
the supervisor state: allocate a port (propagating failure before any
store), store it in `BACKEND_PORT`, launch the child by build mode
(propagating failure with the port already stored), store the child in
`BACKEND_CHILD`, then run the readiness probe; probe success marks the
ghost `ready` flag, probe failure is returned with port and child left
in place. -/
def start_backend (s : SupState) (env : StartEnv) :
    Except SupError Unit × SupState :=
  match find_available_port env.bindOk with
  | Except.error e => (Except.error e, s)
  | Except.ok port =>
    let s1 : SupState := { s with port := port }
    match spawnChild env with
    | Except.error e => (Except.error e, s1)
    | Except.ok child =>
      let s2 : SupState := { s1 with child := some child, ready := false }
      match wait_for_backend env.clientBuild env.probe env.probeFuel with
      | Except.ok _ => (Except.ok (), { s2 with ready := true })
      | Except.error e => (Except.error e, s2)

/-- Environment of one `stop_backend` call: whether the reqwest client
for the graceful POST builds, and the outcomes of the POST and of the
kill primitive.  The code discards all three results (`if let Ok`,
`let _ = ... send()`, `let _ = ... kill()`). -/
structure StopEnv where
  clientBuildOk : Bool
  postResult : Except String Unit
  killResult : Except String Unit

/-- Externally visible actions `stop_backend` performs, in order. -/
inductive Effect where
  | shutdownPost (url : String)
  | sleepMs (n : Nat)
  | killSidecar (id : Nat)
  | killProcess (id : Nat)
deriving DecidableEq, Repr

/-- Stop the backend (backend.rs `stop_backend`): when the stored port
is non-zero, best-effort POST to /shutdown (only if the client builds;
result discarded) and sleep 500 ms; then unconditionally take the
stored child and kill it by variant (result discarded); finally store
port 0.  The function returns unit: no failure is ever surfaced. -/
def stop_backend (s : SupState) (env : StopEnv) :
    Unit × SupState × List Effect :=
  let gracefulFx : List Effect :=
    if s.port > 0 then
      (if env.clientBuildOk then
        [Effect.shutdownPost ("http://127.0.0.1:" ++ toString s.port ++ "/shutdown")]
      else []) ++ [Effect.sleepMs 500]
    else []
  let killFx : List Effect :=
    match s.child with
    | some (BackendChild.sidecar id) => [Effect.killSidecar id]
    | some (BackendChild.process id) => [Effect.killProcess id]
    | none => []
  ((), { port := 0, child := none, ready := false }, gracefulFx ++ killFx)

/-- Lifecycle operations on the process-wide supervisor state. -/
inductive LifecycleOp where
  | start (env : StartEnv)
  | stop (env : StopEnv)

/-- State at process launch: port 0, no child. -/
def initState : SupState := { port := 0, child := none, ready := false }

/-- State transition of one lifecycle operation (its result value is
inspected separately where a claim needs it). -/
def runOp (s : SupState) : LifecycleOp → SupState
  | LifecycleOp.start env => (start_backend s env).2
  | LifecycleOp.stop env => (stop_backend s env).2.1

/-- State reached from `initState` by a sequence of lifecycle calls. -/
def runOps (ops : List LifecycleOp) : SupState :=
  ops.foldl runOp initState

/-- C3: `stop_backend` returns unit (the code never reports failure,
discarding the POST and kill outcomes), always leaves the state with
port 0 and no stored child — from any starting state, including never
started and already stopped — is idempotent under repetition, and its
resulting state is independent of the POST/kill outcomes in the
environment. -/
theorem C3_stop_idempotent (s : SupState) (env env2 : StopEnv) :
    (stop_backend s env).1 = () ∧
    (stop_backend s env).2.1 = { port := 0, child := none, ready := false } ∧
    (stop_backend ((stop_backend s env).2.1) env2).2.1 =
      { port := 0, child := none, ready := false } ∧
    (stop_backend s env).2.1 = (stop_backend s env2).2.1 := by
  refine ⟨rfl, rfl, rfl, rfl⟩

/-- C7: when the port is allocated and the spawn succeeds but the
readiness probe times out, `start_backend` returns the timeout error
while the final state still stores the just-spawned child and the
allocated (non-zero) port: no kill and no clearing happen on readiness
failure, leaving cleanup to a later `stop_backend`. -/
theorem C7_readiness_failure_keeps_child (s : SupState) (env : StartEnv)
    (p : Nat) (c : BackendChild)
    (hp : find_available_port env.bindOk = Except.ok p)
    (hc : spawnChild env = Except.ok c)
    (hr : wait_for_backend env.clientBuild env.probe env.probeFuel =
        Except.error SupError.timeout) :
    (start_backend s env).1 = Except.error SupError.timeout ∧
    (start_backend s env).2.child = some c ∧
    (start_backend s env).2.port = p ∧ p ≠ 0 := by
  have hbounds := findPortFrom_ok env.bindOk 100 8100 p hp
  refine ⟨?_, ?_, ?_, by omega⟩ <;> simp [start_backend, hp, hc, hr]

/-- C7 witness: a concrete environment whose probes never answer leaves
the spawned dev child stored with port 8100 while `start_backend`
reports the timeout. -/
theorem C7_readiness_failure_keeps_child_witness :
    (start_backend initState
        (StartEnv.mk (fun _ => true) true (Except.ok 7) (Except.ok 9)
          (Except.ok ()) (fun _ => ProbeResult.connError "refused") 3)).1 =
      Except.error SupError.timeout ∧
    (start_backend initState
        (StartEnv.mk (fun _ => true) true (Except.ok 7) (Except.ok 9)
          (Except.ok ()) (fun _ => ProbeResult.connError "refused") 3)).2.child =
      some (BackendChild.process 7) ∧
    (start_backend initState
        (StartEnv.mk (fun _ => true) true (Except.ok 7) (Except.ok 9)
          (Except.ok ()) (fun _ => ProbeResult.connError "refused") 3)).2.port =
      8100 ∧ (8100 : Nat) ≠ 0 :=
  C7_readiness_failure_keeps_child initState
    (StartEnv.mk (fun _ => true) true (Except.ok 7) (Except.ok 9)
      (Except.ok ()) (fun _ => ProbeResult.connError "refused") 3)
    8100 (BackendChild.process 7) rfl rfl rfl

/-- C1 counterexample: one failing `start_backend` (bind succeeds, dev
spawn fails) reaches a state whose port is non-zero (8100 was stored
before the spawn) while no child is stored — the claimed invariant is
violated by a reachable state. -/
theorem C1_counterexample :
    (runOps [LifecycleOp.start (StartEnv.mk (fun _ => true) true
        (Except.error "boom") (Except.ok 1) (Except.ok ())
        (fun _ => ProbeResult.connError "refused") 0)]).port ≠ 0 ∧
    (runOps [LifecycleOp.start (StartEnv.mk (fun _ => true) true
        (Except.error "boom") (Except.ok 1) (Except.ok ())
        (fun _ => ProbeResult.connError "refused") 0)]).child = none := by
  exact ⟨by decide, rfl⟩

/-- C1 (amended): the invariant holds at every quiescent point except
immediately after a failed start: a state with a non-zero port and no
stored child, or with an unready stored child, can only be produced by
a `start_backend` call that returned an error; every successful
`start_backend` leaves a non-zero port, a stored child, and the
readiness flag set, and every `stop_backend` leaves port 0 and no
child. -/
theorem C1_amended_invariant (s : SupState) (op : LifecycleOp) :
    ((runOp s op).port ≠ 0 ∧
        ((runOp s op).child = none ∨ (runOp s op).ready = false) →
      ∃ env, op = LifecycleOp.start env ∧
        ∃ e, (start_backend s env).1 = Except.error e) ∧
    (∀ env, op = LifecycleOp.start env →
        (start_backend s env).1 = Except.ok () →
      (runOp s op).port ≠ 0 ∧ (runOp s op).child ≠ none ∧
        (runOp s op).ready = true) ∧
    (∀ env, op = LifecycleOp.stop env →
      runOp s op = { port := 0, child := none, ready := false }) := by
  cases op with
  | stop env =>
    refine ⟨?_, ?_, ?_⟩
    · rintro ⟨hport, -⟩
      exact absurd rfl hport
    · intro env2 heq
      cases heq
    · intro env2 heq
      cases heq
      rfl
  | start env =>
    refine ⟨?_, ?_, ?_⟩
    · rintro ⟨hport, hrest⟩
      refine ⟨env, rfl, ?_⟩
      cases hfp : find_available_port env.bindOk with
      | error e => exact ⟨e, by simp [start_backend, hfp]⟩
      | ok p =>
        cases hsc : spawnChild env with
        | error e => exact ⟨e, by simp [start_backend, hfp, hsc]⟩
        | ok c =>
          cases hw : wait_for_backend env.clientBuild env.probe env.probeFuel with
          | error e => exact ⟨e, by simp [start_backend, hfp, hsc, hw]⟩
          | ok u =>
            exfalso
            have hstate : runOp s (LifecycleOp.start env) =
                { port := p, child := some c, ready := true } := by
              simp [runOp, start_backend, hfp, hsc, hw]
            rw [hstate] at hrest
            rcases hrest with h | h <;> simp at h
    · intro env2 heq hok
      cases heq
      cases hfp : find_available_port env.bindOk with
      | error e => simp [start_backend, hfp] at hok
      | ok p =>
        cases hsc : spawnChild env with
        | error e => simp [start_backend, hfp, hsc] at hok
        | ok c =>
          cases hw : wait_for_backend env.clientBuild env.probe env.probeFuel with
          | error e => simp [start_backend, hfp, hsc, hw] at hok
          | ok u =>
            obtain ⟨hb1, hb2, -, -⟩ := findPortFrom_ok env.bindOk 100 8100 p hfp
            have hstate : runOp s (LifecycleOp.start env) =
                { port := p, child := some c, ready := true } := by
              simp [runOp, start_backend, hfp, hsc, hw]
            rw [hstate]
            exact ⟨fun h => absurd (show p = 0 from h) (by omega), by simp, rfl⟩
    · intro env2 heq
      cases heq

/-- C1 witness: a stop from the initial state lands on the all-clear
state, discharging the amended theorem at a concrete operation. -/
theorem C1_amended_invariant_witness :
    runOp initState
        (LifecycleOp.stop (StopEnv.mk true (Except.ok ()) (Except.ok ()))) =
      { port := 0, child := none, ready := false } :=
  (C1_amended_invariant initState
      (LifecycleOp.stop (StopEnv.mk true (Except.ok ()) (Except.ok ())))).2.2
    (StopEnv.mk true (Except.ok ()) (Except.ok ())) rfl

/-- Configuration of a reqwest client builder; the only setting the
code ever applies is the request timeout (given in milliseconds). -/
structure ClientBuilder where
  timeoutMs : Option Nat
deriving DecidableEq, Repr

/-- The builder default (`reqwest::Client::builder()`): no request
timeout configured, the reqwest default. -/
def clientBuilderDefault : ClientBuilder := { timeoutMs := none }

/-- The builder method `.timeout(d)`. -/
def withTimeout (b : ClientBuilder) (ms : Nat) : ClientBuilder :=
  { b with timeoutMs := some ms }

/-- A built reqwest client, keeping the configured request timeout. -/
structure ReqwestClient where
  timeoutMs : Option Nat
deriving DecidableEq, Repr

/-- Building a client keeps the builder configuration. -/
def buildClient (b : ClientBuilder) : ReqwestClient :=
  { timeoutMs := b.timeoutMs }

/-- The client constructor `reqwest::Client::new()`: the default
builder built, hence no request timeout. -/
def clientNew : ReqwestClient := buildClient clientBuilderDefault

/-- The client `wait_for_backend` builds (backend.rs lines 155-157): a
2 s per-request timeout. -/
def waitForBackendClient : ReqwestClient :=
  buildClient (withTimeout clientBuilderDefault 2000)

/-- The client `stop_backend` builds for the graceful POST (backend.rs
lines 115-117): a 5 s timeout. -/
def stopShutdownClient : ReqwestClient :=
  buildClient (withTimeout clientBuilderDefault 5000)

/-- The client `backend_request` uses (backend.rs line 180):
`reqwest::Client::new()`, hence no request timeout. -/
def backendRequestClient : ReqwestClient := clientNew

/-- Timeout wrapped around the bind probe in `find_available_port`
(backend.rs line 145): `tokio::net::TcpListener::bind` is awaited
bare, with no timeout combinator. -/
def portBindTimeoutMs : Option Nat := none

/-- C8 counterexample: it is not the case that all four network
operations carry an explicit timeout — the proxied `backend_request`
client and the port-bind probe carry none. -/
theorem C8_counterexample :
    ¬(portBindTimeoutMs.isSome = true ∧
      waitForBackendClient.timeoutMs.isSome = true ∧
      backendRequestClient.timeoutMs.isSome = true ∧
      stopShutdownClient.timeoutMs.isSome = true) := by
  decide

/-- C8 (amended): the readiness polls carry an explicit 2 s per-request
timeout and the shutdown POST an explicit 5 s timeout, but the
port-bind probe and the calls issued through `backend_request` are
configured with no explicit timeout. -/
theorem C8_amended_timeouts :
    waitForBackendClient.timeoutMs = some 2000 ∧
    stopShutdownClient.timeoutMs = some 5000 ∧
    backendRequestClient.timeoutMs = none ∧
    portBindTimeoutMs = none :=
  ⟨rfl, rfl, rfl, rfl⟩

end Ragkit
